import Mathlib

/-!
Shallow embedding of the discord-pipecat-bot repository (TypeScript) for
checking its natural-language specification.

Modelling conventions:
* Machine time (`Date.now()` / `new Date()`) is an epoch-milliseconds `Nat`
  carried in the store (`Store.now`).
* The Redis cache and the PostgreSQL durable store are association lists in a
  `Store` record; availability of each backend is a boolean flag
  (`cacheUp`, `dbUp`).  An operation against an unavailable backend raises an
  error (a rejected promise), modelled with `Except String`.
* A JSON round trip (`JSON.parse (JSON.stringify x)` plus the
  `new Date(msg.timestamp)` reconstruction performed by `getContext`) is the
  identity on every modelled field, so the cache stores contexts directly.
* Cache TTLs (setEx) are not modelled as expiry; "within the TTL window"
  becomes the hypothesis that the cache entry is still present.
-/

namespace DiscordBot

/-- Association-list lookup keyed by decidable equality (models
`Collection.get` / `redis.get` / a keyed SQL `SELECT`). -/
def alookup {α β : Type} [DecidableEq α] : List (α × β) → α → Option β
  | [], _ => none
  | (k, v) :: rest, a => if a = k then some v else alookup rest a

/-- Association-list overwrite (models `Collection.set` / `redis.setEx` /
SQL upsert): the new binding shadows any previous binding of the key. -/
def aset {α β : Type} [DecidableEq α] (l : List (α × β)) (k : α) (v : β) :
    List (α × β) :=
  (k, v) :: l.filter (fun p => p.1 ≠ k)

/-- Association-list delete (models `redis.del` / SQL `DELETE`). -/
def adel {α β : Type} [DecidableEq α] (l : List (α × β)) (k : α) :
    List (α × β) :=
  l.filter (fun p => p.1 ≠ k)

/-! ### Data model (src/bot/src/types/index.ts) -/

/-- `NotificationSettings` from types/index.ts. -/
structure NotificationSettings where
  reminders : Bool
  mentions : Bool
  dms : Bool
  deriving DecidableEq, Repr

/-- `UserPreferences` from types/index.ts (`voiceModel` is optional and never
touched by the code under study, kept as an `Option`). -/
structure UserPreferences where
  language : String
  voiceModel : Option String := none
  textModel : String
  autoJoinVoice : Bool
  notificationSettings : NotificationSettings
  deriving DecidableEq, Repr

/-- A tool result attached to a history entry or returned by the gateway
(`ToolResult` from types/index.ts; `input`/`output` are `any` in TS, modelled
as strings / optional strings). -/
structure ToolResult where
  name : String
  input : String
  output : Option String
  success : Bool
  error : Option String := none
  deriving DecidableEq, Repr

/-- Optional metadata on a history entry (`MessageHistory.metadata`). -/
structure TurnMetadata where
  tools : Option (List ToolResult) := none
  interactionType : Option String := none
  deriving DecidableEq, Repr

/-- One history turn (`MessageHistory` from types/index.ts); `timestamp` is
epoch milliseconds. -/
structure MessageHistory where
  role : String
  content : String
  timestamp : Nat
  metadata : Option TurnMetadata := none
  deriving DecidableEq, Repr

/-- `ConversationContext` from types/index.ts. -/
structure ConversationContext where
  userId : String
  guildId : Option String := none
  channelId : String
  interactionType : String
  history : List MessageHistory
  tools : List String
  preferences : UserPreferences
  timestamp : Nat
  deriving DecidableEq, Repr

/-- The row stored by `ContextService.storeContextInDatabase` in the
`conversation_contexts` table (the columns of the upsert). -/
structure DbContextRow where
  guildId : Option String
  interactionType : String
  history : List MessageHistory
  tools : List String
  preferences : UserPreferences
  deriving DecidableEq, Repr

/-- Combined state of the Redis cache and the PostgreSQL database as seen by
`ContextService`, plus a clock and availability flags for each backend. -/
structure Store where
  now : Nat
  cacheUp : Bool
  dbUp : Bool
  ctxCache : List ((String × String) × ConversationContext)
  prefsCache : List (String × UserPreferences)
  dbUsers : List (String × UserPreferences)
  dbContexts : List ((String × String) × DbContextRow)
  deriving DecidableEq, Repr

namespace ContextService

/-- The hardcoded default preferences built by
`ContextService.getUserPreferences` (context.ts lines 119-128 and 145-154:
both literals are identical). -/
def defaultPreferences : UserPreferences :=
  { language := "en"
    textModel := "gpt-4"
    autoJoinVoice := true
    notificationSettings := { reminders := true, mentions := true, dms := true } }

/-- The happy path of `getUserPreferences` (context.ts lines 100-140): redis
lookup, then database lookup, then default creation with an insert of the
default row, finally the write-through to the preferences cache.  Any backend
failure surfaces as `Except.error`, to be caught by the wrapper below. -/
def getUserPreferencesTry (s : Store) (userId : String) :
    Except String (UserPreferences × Store) :=
  if s.cacheUp = false then .error "redis unavailable"
  else
    match alookup s.prefsCache userId with
    | some cached => .ok (cached, s)
    | none =>
      if s.dbUp = false then .error "database unavailable"
      else
        match alookup s.dbUsers userId with
        | some prefs =>
          .ok (prefs, { s with prefsCache := aset s.prefsCache userId prefs })
        | none =>
          let prefs := defaultPreferences
          -- INSERT ... ON CONFLICT (id) DO NOTHING
          let dbUsers' :=
            match alookup s.dbUsers userId with
            | some _ => s.dbUsers
            | none => aset s.dbUsers userId prefs
          .ok (prefs,
            { s with
                dbUsers := dbUsers'
                prefsCache := aset s.prefsCache userId prefs })

/-- `ContextService.getUserPreferences` (context.ts lines 99-156): the
try/catch wrapper returns the hardcoded defaults on any error instead of
propagating it.  On the error paths no backend mutation has happened yet, so
the store is returned unchanged. -/
def getUserPreferences (s : Store) (userId : String) : UserPreferences × Store :=
  match getUserPreferencesTry s userId with
  | .ok r => r
  | .error _ => (defaultPreferences, s)

/-- `ContextService.getContext` (context.ts lines 24-61): cache hit returns
the cached context (JSON round trip is the identity on modelled fields);
cache miss builds a fresh context seeded with the current preferences, writes
it to the cache, and returns it.  The surrounding try/catch rethrows, so any
backend error from the cache propagates. -/
def getContext (s : Store) (userId channelId : String) :
    Except String (ConversationContext × Store) :=
  if s.cacheUp = false then .error "redis unavailable"
  else
    match alookup s.ctxCache (userId, channelId) with
    | some cached => .ok (cached, s)
    | none =>
      let (preferences, s1) := getUserPreferences s userId
      let context : ConversationContext :=
        { userId := userId
          channelId := channelId
          interactionType := "message"
          history := []
          tools := []
          preferences := preferences
          timestamp := s1.now }
      .ok (context,
        { s1 with ctxCache := aset s1.ctxCache (userId, channelId) context })

/-- `ContextService.storeContextInDatabase` (context.ts lines 180-208): an
upsert into `conversation_contexts` whose own try/catch swallows every error
("Don't throw error for database storage failures"), so it always returns a
store. -/
def storeContextInDatabase (s : Store) (context : ConversationContext) : Store :=
  if s.dbUp = false then s
  else
    { s with
        dbContexts :=
          aset s.dbContexts (context.userId, context.channelId)
            { guildId := context.guildId
              interactionType := context.interactionType
              history := context.history
              tools := context.tools
              preferences := context.preferences } }

/-- `ContextService.updateContext` (context.ts lines 63-79): stamps
`timestamp = now`, overwrites the cache entry, then fires the swallowed
durable upsert.  A cache failure propagates through the rethrowing catch. -/
def updateContext (s : Store) (context : ConversationContext) :
    Except String Store :=
  if s.cacheUp = false then .error "redis unavailable"
  else
    let context' := { context with timestamp := s.now }
    let s1 :=
      { s with ctxCache := aset s.ctxCache (context.userId, context.channelId) context' }
    .ok (storeContextInDatabase s1 context')

/-- `ContextService.clearContext` (context.ts lines 81-97): deletes the cache
entry, then the durable row; unlike `storeContextInDatabase` its catch
rethrows, so either backend being unavailable propagates as an error. -/
def clearContext (s : Store) (userId channelId : String) :
    Except String Store :=
  if s.cacheUp = false then .error "redis unavailable"
  else
    let s1 := { s with ctxCache := adel s.ctxCache (userId, channelId) }
    if s1.dbUp = false then .error "database unavailable"
    else .ok { s1 with dbContexts := adel s1.dbContexts (userId, channelId) }

end ContextService

/-! ### AI Text Gateway (src/services/griptape.ts, `GriptapeService`) -/

/-- `AIResponse` from types/index.ts (the `context` field is never produced by
the code under study and is omitted; `metadata` is optional). -/
structure AIMetadata where
  model : String
  tokens : Nat
  latency : Nat
  deriving DecidableEq, Repr

structure AIResponse where
  content : String
  tools : Option (List ToolResult) := none
  metadata : Option AIMetadata := none
  deriving DecidableEq, Repr

structure ServiceMetrics where
  requestsPerMinute : Nat
  averageLatency : Nat
  errorRate : Nat
  deriving DecidableEq, Repr

/-- `ServiceStatus` from types/index.ts; `lastCheck` is epoch milliseconds. -/
structure ServiceStatus where
  status : String
  uptime : Nat
  lastCheck : Nat
  errors : List String
  metrics : ServiceMetrics
  deriving DecidableEq, Repr

/-- The `context` object of the `POST /process` request body built by
`GriptapeService.processMessage` (griptape.ts lines 58-69). -/
structure ProcessPayloadContext where
  userId : String
  guildId : Option String
  channelId : String
  interactionType : String
  history : List MessageHistory
  tools : List String
  preferences : UserPreferences
  deriving DecidableEq, Repr

namespace GriptapeService

/-- The `POST /process` body built by `processMessage`:
`context.history.slice(-10)` keeps the last ten turns (`List.drop` with
truncated subtraction is exactly JavaScript `slice(-10)` for the list
lengths involved: all of the list when it has at most ten elements). -/
def processPayload (message : String) (context : ConversationContext) :
    String × ProcessPayloadContext :=
  (message,
    { userId := context.userId
      guildId := context.guildId
      channelId := context.channelId
      interactionType := context.interactionType
      history := context.history.drop (context.history.length - 10)
      tools := context.tools
      preferences := context.preferences })

/-- `GriptapeService.processMessage` (griptape.ts lines 54-85).  The HTTP
transport is an oracle: `none` models a transport/service error (rejected
promise or non-2xx), `some r` a successful response body.  On success the
metadata defaults are filled in; on failure the catch rethrows a wrapped
error, so the rejection propagates. -/
def processMessage (transport : Option AIResponse) (message : String)
    (context : ConversationContext) : Except String AIResponse :=
  let _payload := processPayload message context
  match transport with
  | none => .error "Failed to process message"
  | some r =>
    .ok { r with
            metadata := some
              { model := (r.metadata.map (·.model)).getD "gpt-4"
                tokens := (r.metadata.map (·.tokens)).getD 0
                latency := (r.metadata.map (·.latency)).getD 0 } }

/-- `GriptapeService.executeTool` (griptape.ts lines 87-106).  On a transport
or service error the catch does NOT rethrow: it returns a `ToolResult` with
`success: false` and the error message, so the promise resolves normally
(`Except.ok`). -/
def executeTool (transport : Option ToolResult) (toolName : String)
    (params : String) : Except String ToolResult :=
  match transport with
  | some r => .ok r
  | none =>
    .ok { name := toolName
          input := params
          output := none
          success := false
          error := some "Unknown error" }

/-- `GriptapeService.getStatus` (griptape.ts lines 129-157).  On a transport
or service error the catch does NOT rethrow: it returns a synthetic
`unhealthy` status, so the promise resolves normally. -/
def getStatus (transport : Option ServiceStatus) (now latency : Nat) :
    Except String ServiceStatus :=
  match transport with
  | some st =>
    .ok { st with metrics := { st.metrics with averageLatency := latency } }
  | none =>
    .ok { status := "unhealthy"
          uptime := 0
          lastCheck := now
          errors := ["Unknown error"]
          metrics := { requestsPerMinute := 0, averageLatency := 0, errorRate := 100 } }

end GriptapeService

/-! ### Slash-command cooldowns (src/bot/src/handlers/slashCommands.ts) -/

/-- A registered slash command as the cooldown logic sees it: the optional
per-command cooldown (seconds), and the number of AI-gateway calls its
`execute` handler performs when dispatched (e.g. 1 for `/chat`). -/
structure SlashCommandModel where
  cooldown : Option Nat
  aiCalls : Nat
  deriving Repr

/-- The private `cooldowns` collection of `SlashCommandHandler`:
`Collection<commandName, Collection<cooldownKey, timestamp>>`. -/
structure CooldownState where
  table : List (String × List (String × Nat))
  deriving Repr

inductive InteractionOutcome where
  /-- Unknown command: an ephemeral "Unknown command" reply, no dispatch. -/
  | unknown
  /-- Rejected by the cooldown check with the "Please wait ... more seconds"
  message; `timeLeftMs` is `expirationTime - now` in milliseconds. -/
  | rejected (timeLeftMs : Nat)
  /-- The command's `execute` handler was dispatched. -/
  | dispatched
  deriving DecidableEq, Repr

structure InteractionResult where
  outcome : InteractionOutcome
  state : CooldownState
  /-- Number of AI-gateway invocations performed by this interaction; nonzero
  only when the execute handler was dispatched. -/
  aiCalls : Nat
  deriving Repr

namespace SlashCommandHandler

/-- `SlashCommandHandler.handleInteraction` (slashCommands.ts lines 222-274),
restricted to command lookup, the cooldown check, and dispatch.  JavaScript
`if (command.cooldown)` is falsy for both `undefined` and `0`, hence the
explicit zero test.  On rejection the handler replies and returns before
`timestamps.set`, so the cooldown table is untouched; on dispatch the
timestamp is recorded (before `execute` runs). -/
def handleInteraction (commands : List (String × SlashCommandModel))
    (st : CooldownState) (userId commandName : String) (now : Nat) :
    InteractionResult :=
  match alookup commands commandName with
  | none => { outcome := .unknown, state := st, aiCalls := 0 }
  | some command =>
    let dispatch (st' : CooldownState) : InteractionResult :=
      { outcome := .dispatched, state := st', aiCalls := command.aiCalls }
    match command.cooldown with
    | none => dispatch st
    | some cooldown =>
      if cooldown = 0 then dispatch st
      else
        let cooldownKey := userId ++ "-" ++ commandName
        let timestamps := (alookup st.table commandName).getD []
        let cooldownAmount := cooldown * 1000
        let record : CooldownState :=
          { table := aset st.table commandName (aset timestamps cooldownKey now) }
        match alookup timestamps cooldownKey with
        | some t0 =>
          let expirationTime := t0 + cooldownAmount
          if now < expirationTime then
            { outcome := .rejected (expirationTime - now), state := st, aiCalls := 0 }
          else dispatch record
        | none => dispatch record

end SlashCommandHandler

/-! ### Plain-message router (src/bot/src/handlers/messages.ts, `MessageHandler`) -/

/-- Result of one message-router invocation: the replies sent on the channel,
the `POST /process` request body sent to the AI Text Gateway (if any), and
the resulting backing-store state. -/
structure MessageOutcome where
  replies : List String
  request : Option (String × ProcessPayloadContext)
  store : Store
  deriving Repr

namespace MessageHandler

/-- Accumulator-based whitespace tokenizer over the character sequence (JS
strings are code-unit sequences; structural recursion keeps every use
kernel-computable). -/
def splitWsAux : List Char → List Char → List String
  | [], acc => if acc.isEmpty then [] else [⟨acc.reverse⟩]
  | ch :: cs, acc =>
    if ch.isWhitespace then
      if acc.isEmpty then splitWsAux cs [] else ⟨acc.reverse⟩ :: splitWsAux cs []
    else splitWsAux cs (ch :: acc)

/-- Whitespace tokenization: JavaScript `content.split(/\s+/)` on trimmed
content (`/\s+/` consumes whole whitespace runs, so no empty fragments). -/
def splitWs (content : String) : List String :=
  splitWsAux content.data []

/-- JavaScript `toLowerCase()` on the command token (ASCII). -/
def lowerStr (s : String) : String :=
  ⟨s.data.map Char.toLower⟩

/-- JavaScript `trim()`: strip leading and trailing whitespace. -/
def trimStr (s : String) : String :=
  ⟨((s.data.dropWhile Char.isWhitespace).reverse.dropWhile Char.isWhitespace).reverse⟩

/-- JavaScript `join(' ')` on the argument fragments. -/
def joinSpace : List String → String
  | [] => ""
  | [x] => x
  | x :: xs => x ++ " " ++ joinSpace xs

/-- A `\w+` token: nonempty, all characters alphanumeric or underscore. -/
def isWordToken (t : String) : Bool :=
  !t.data.isEmpty && t.data.all (fun ch => ch.isAlphanum || ch = '_')

/-- The fixed command vocabulary of `MessageHandler.isCommand`
(messages.ts lines 137-140). -/
def validCommands : List String :=
  ["help", "ping", "info", "status", "clear", "reset",
   "remind", "time", "weather", "search", "translate"]

/-- The content-extraction step of `MessageHandler.handleMessage` for a
prefixed message (messages.ts lines 98-116, with the default
`BOT_PREFIX = "!"`): strips the prefix, trims, and drops messages that are
empty afterwards.  Returns `none` when the prefixed path does not fire. -/
def extractPrefixedContent (msgContent : String) : Option String :=
  match msgContent.data with
  | '!' :: rest =>
    let content := trimStr ⟨rest⟩
    if content.data.isEmpty then none else some content
  | _ => none

/-- `MessageHandler.isCommand` (messages.ts lines 128-143): the content must
match `^(\w+)(?:\s+(.+))?$` — a single word token optionally followed by
whitespace and arguments (modelled on single-line content) — and its
lowercased first token must be in the fixed vocabulary. -/
def isCommand (content : String) : Bool :=
  match splitWs content with
  | [] => false
  | cmd :: _ => isWordToken cmd && validCommands.contains (lowerStr cmd)

/-- The argument split of `MessageHandler.handleCommandMessage`
(messages.ts lines 146-150): `parts[0].toLowerCase()` and
`parts.slice(1).join(' ')`. -/
def parseCommand (content : String) : String × String :=
  match splitWs content with
  | [] => ("", "")
  | cmd :: rest => (lowerStr cmd, joinSpace rest)

/-- `MessageHandler.handleWeatherCommand` for prefix commands
(messages.ts lines 359-375), reached from the `case 'weather'` branch of
`handleCommandMessage`: empty args yield a usage reply; otherwise the handler
reads the context, forwards the weather prompt to the gateway, and replies
with the response content verbatim.  It pushes nothing onto
`context.history` and never calls `updateContext`; errors from `getContext`
or `processMessage` are caught and turned into an apology reply. -/
def handleWeatherCommand (transport : Option AIResponse) (s : Store)
    (userId channelId args : String) : MessageOutcome :=
  if args.data.isEmpty then
    { replies := ["Usage: `!weather <location>`\nExample: `!weather San Francisco`"]
      request := none
      store := s }
  else
    match ContextService.getContext s userId channelId with
    | .error _ =>
      { replies := ["Sorry, I encountered an error getting the weather."]
        request := none
        store := s }
    | .ok (context, s1) =>
      let weatherPrompt := "What's the weather like in " ++ args ++ "?"
      match GriptapeService.processMessage transport weatherPrompt context with
      | .error _ =>
        { replies := ["Sorry, I encountered an error getting the weather."]
          request := some (GriptapeService.processPayload weatherPrompt context)
          store := s1 }
      | .ok response =>
        { replies := [response.content]
          request := some (GriptapeService.processPayload weatherPrompt context)
          store := s1 }

/-- `MessageHandler.handleConversationMessage` (messages.ts lines 194-241),
the free-form path: appends the user turn, calls the gateway, appends the
assistant turn, persists via `updateContext`, and replies with the content.
Included as the contrast to the command path: history append and persistence
happen here, not in `handleWeatherCommand`. -/
def handleConversationMessage (transport : Option AIResponse) (s : Store)
    (userId channelId content : String) : MessageOutcome :=
  match ContextService.getContext s userId channelId with
  | .error _ =>
    { replies := ["Sorry, I encountered an error processing your message. Please try again."]
      request := none
      store := s }
  | .ok (context, s1) =>
    let context1 : ConversationContext :=
      { context with
          interactionType := "message"
          timestamp := s1.now
          history := context.history ++
            [{ role := "user", content := content, timestamp := s1.now
               metadata := some { interactionType := some "message" } }] }
    match GriptapeService.processMessage transport content context1 with
    | .error _ =>
      { replies := ["Sorry, I encountered an error processing your message. Please try again."]
        request := some (GriptapeService.processPayload content context1)
        store := s1 }
    | .ok response =>
      let context2 : ConversationContext :=
        { context1 with
            history := context1.history ++
              [{ role := "assistant", content := response.content, timestamp := s1.now
                 metadata := some { tools := response.tools
                                    interactionType := some "message" } }] }
      match ContextService.updateContext s1 context2 with
      | .error _ =>
        { replies := ["Sorry, I encountered an error processing your message. Please try again."]
          request := some (GriptapeService.processPayload content context1)
          store := s1 }
      | .ok s2 =>
        { replies := [response.content]
          request := some (GriptapeService.processPayload content context1)
          store := s2 }

end MessageHandler

/-- Whether a modelled asynchronous operation resolved (`Except.ok`) rather
than rejected (`Except.error`). -/
def resolves {α : Type} : Except String α → Bool
  | .ok _ => true
  | .error _ => false

/-! ### Concrete sample states used by witnesses and counterexamples -/

/-- A healthy, empty backing store. -/
def sampleStore : Store :=
  { now := 1000, cacheUp := true, dbUp := true
    ctxCache := [], prefsCache := [], dbUsers := [], dbContexts := [] }

/-- A store whose durable database is down but whose cache is up. -/
def sampleStoreDbDown : Store :=
  { sampleStore with dbUp := false }

/-- A store whose cache is down. -/
def sampleStoreCacheDown : Store :=
  { sampleStore with cacheUp := false }

/-- A concrete conversation context with one prior turn. -/
def sampleCtx : ConversationContext :=
  { userId := "u1", channelId := "c1", interactionType := "message"
    history := [{ role := "user", content := "hi", timestamp := 5 }]
    tools := [], preferences := ContextService.defaultPreferences
    timestamp := 5 }

/-- Modelled from the spec's words ("Sends only the last N (10) history
turns", all turns when the history has at most N): the suffix of at most `n`
elements of a list, obtained by discarding the oldest element while more
than `n` remain.  Used as the independent reference against which the
payload built by `processPayload` is compared. -/
def specLastTurns {α : Type} (n : Nat) : List α → List α
  | [] => []
  | x :: xs => if xs.length + 1 ≤ n then x :: xs else specLastTurns n xs

/-- A concrete twelve-turn history, used by the C6 witness. -/
def longHistory : List MessageHistory :=
  (List.range 12).map (fun i => { role := "user", content := "m", timestamp := i })

/-- A concrete context holding twelve turns, used by the C6 witness. -/
def longCtx : ConversationContext :=
  { sampleCtx with history := longHistory }

/-- The command table used by the cooldown witnesses: `/chat`, cooldown 3
seconds, one AI-gateway call in its execute handler. -/
def c7Commands : List (String × SlashCommandModel) :=
  [("chat", { cooldown := some 3, aiCalls := 1 })]

/-- The cooldown state used by the C10 witness: "u1" last dispatched `/chat`
at t=1000ms. -/
def c10State : CooldownState :=
  { table := [("chat", [("u1-chat", 1000)])] }

/-- The context cached for ("u1", "c1") in the C8 scenario: one prior turn. -/
def c8Ctx : ConversationContext :=
  { userId := "u1", channelId := "c1", interactionType := "message"
    history := [{ role := "user", content := "earlier message", timestamp := 1 }]
    tools := [], preferences := ContextService.defaultPreferences
    timestamp := 1 }

/-- The store of the C8 scenario: healthy backends, `c8Ctx` in the cache. -/
def c8Store : Store :=
  { sampleStore with ctxCache := [(("u1", "c1"), c8Ctx)] }

/-- The AI service's response in the C8 scenario. -/
def c8Response : AIResponse :=
  { content := "Sunny in SF" }

/-! ### Helper lemmas about the association-list operations -/

theorem alookup_aset_self {α β : Type} [DecidableEq α]
    (l : List (α × β)) (k : α) (v : β) : alookup (aset l k v) k = some v := by
  simp [aset, alookup]

theorem alookup_filter_ne {α β : Type} [DecidableEq α]
    (l : List (α × β)) (k k' : α) (h : k' ≠ k) :
    alookup (l.filter (fun p => p.1 ≠ k)) k' = alookup l k' := by
  induction l with
  | nil => rfl
  | cons p rest ih =>
    rw [List.filter_cons]
    split
    · rename_i hcond
      cases p with
      | mk pk pv =>
        by_cases hk : k' = pk
        · simp [alookup, hk]
        · simp only [alookup, if_neg hk]
          exact ih
    · rename_i hcond
      simp at hcond
      cases p with
      | mk pk pv =>
        simp only at hcond
        have hk : k' ≠ pk := fun hke => h (hke.trans hcond)
        simp only [alookup, if_neg hk]
        exact ih

theorem alookup_aset_ne {α β : Type} [DecidableEq α]
    (l : List (α × β)) (k k' : α) (v : β) (h : k' ≠ k) :
    alookup (aset l k v) k' = alookup l k' := by
  simp only [aset, alookup, if_neg h]
  exact alookup_filter_ne l k k' h

theorem alookup_filter_self {α β : Type} [DecidableEq α]
    (l : List (α × β)) (k : α) :
    alookup (l.filter (fun p => p.1 ≠ k)) k = none := by
  induction l with
  | nil => rfl
  | cons p rest ih =>
    rw [List.filter_cons]
    split
    · rename_i hcond
      simp at hcond
      cases p with
      | mk pk pv =>
        simp only at hcond
        have hk : k ≠ pk := fun hke => hcond hke.symm
        simp only [alookup, if_neg hk]
        exact ih
    · exact ih

theorem alookup_adel_self {α β : Type} [DecidableEq α]
    (l : List (α × β)) (k : α) : alookup (adel l k) k = none :=
  alookup_filter_self l k

/-! ### Helper lemmas about the context store -/

theorem storeContextInDatabase_ctxCache (s : Store) (ctx : ConversationContext) :
    (ContextService.storeContextInDatabase s ctx).ctxCache = s.ctxCache := by
  unfold ContextService.storeContextInDatabase
  split <;> rfl

theorem storeContextInDatabase_cacheUp (s : Store) (ctx : ConversationContext) :
    (ContextService.storeContextInDatabase s ctx).cacheUp = s.cacheUp := by
  unfold ContextService.storeContextInDatabase
  split <;> rfl

/-! ### C1 -/

/-- C1: for every conversation context, `updateContext ctx` followed
immediately by `getContext ctx.userId ctx.channelId` (cache available, entry
still within the 1-hour TTL window) succeeds and returns a context whose
`history` equals `ctx.history`. -/
theorem C1_update_then_get_preserves_history (s : Store) (ctx : ConversationContext)
    (hc : s.cacheUp = true) :
    ∃ s' ctx' s'',
      ContextService.updateContext s ctx = .ok s' ∧
      ContextService.getContext s' ctx.userId ctx.channelId = .ok (ctx', s'') ∧
      ctx'.history = ctx.history := by
  refine ⟨ContextService.storeContextInDatabase
      { s with ctxCache := (aset s.ctxCache (ctx.userId, ctx.channelId)
          ({ ctx with timestamp := s.now })) }
      ({ ctx with timestamp := s.now }),
    { ctx with timestamp := s.now },
    ContextService.storeContextInDatabase
      { s with ctxCache := (aset s.ctxCache (ctx.userId, ctx.channelId)
          ({ ctx with timestamp := s.now })) }
      ({ ctx with timestamp := s.now }),
    ?_, ?_, rfl⟩
  · unfold ContextService.updateContext
    simp [hc]
  · unfold ContextService.getContext
    simp [storeContextInDatabase_cacheUp, storeContextInDatabase_ctxCache, hc,
      alookup_aset_self]

/-- Witness for C1 at a concrete store and context. -/
theorem C1_witness :
    ∃ s' ctx' s'',
      ContextService.updateContext sampleStore sampleCtx = .ok s' ∧
      ContextService.getContext s' sampleCtx.userId sampleCtx.channelId = .ok (ctx', s'') ∧
      ctx'.history = sampleCtx.history :=
  C1_update_then_get_preserves_history sampleStore sampleCtx rfl

/-! ### C2 -/

/-- C2: for a (userId, channelId) pair never seen before (no cache entry, no
durable preference row), `getContext` returns — rather than any "not found"
error — a fresh context with empty history, the default preferences and the
default interaction type, and writes that context to the cache before
returning it. -/
theorem C2_fresh_default_context (s : Store) (u c : String)
    (hc : s.cacheUp = true)
    (hctx : alookup s.ctxCache (u, c) = none)
    (hp : alookup s.prefsCache u = none)
    (hd : alookup s.dbUsers u = none) :
    ∃ ctx s',
      ContextService.getContext s u c = .ok (ctx, s') ∧
      ctx.history = [] ∧
      ctx.interactionType = "message" ∧
      ctx.preferences =
        { language := "en", textModel := "gpt-4", autoJoinVoice := true
          notificationSettings := { reminders := true, mentions := true, dms := true } } ∧
      alookup s'.ctxCache (u, c) = some ctx := by
  rcases hgp : ContextService.getUserPreferences s u with ⟨p, s1⟩
  have hpd : p = ContextService.defaultPreferences := by
    have h1 : (ContextService.getUserPreferences s u).1 =
        ContextService.defaultPreferences := by
      unfold ContextService.getUserPreferences ContextService.getUserPreferencesTry
      cases hdb : s.dbUp <;> simp [hc, hp, hd, hdb]
    rw [hgp] at h1
    exact h1
  refine ⟨⟨u, none, c, "message", [], [], p, s1.now⟩,
    { s1 with ctxCache := (aset s1.ctxCache (u, c) ⟨u, none, c, "message", [], [], p, s1.now⟩) },
    ?_, rfl, rfl, by rw [hpd]; rfl, alookup_aset_self _ _ _⟩
  unfold ContextService.getContext
  simp only [hc]
  rw [if_neg (by simp)]
  rw [hctx, hgp]

/-- Witness for C2 at a concrete empty store. -/
theorem C2_witness :
    ∃ ctx s',
      ContextService.getContext sampleStore "u2" "c2" = .ok (ctx, s') ∧
      ctx.history = [] ∧
      ctx.interactionType = "message" ∧
      ctx.preferences =
        { language := "en", textModel := "gpt-4", autoJoinVoice := true
          notificationSettings := { reminders := true, mentions := true, dms := true } } ∧
      alookup s'.ctxCache ("u2", "c2") = some ctx :=
  C2_fresh_default_context sampleStore "u2" "c2" rfl rfl rfl rfl

/-! ### C3 -/

/-- C3: `updateContext` resolves whenever the cache write succeeds, whatever
the durable store does (the durable upsert's failure is swallowed inside
`storeContextInDatabase`); when the cache is unavailable both `getContext`
and `updateContext` reject loudly. -/
theorem C3_cache_failure_semantics (s : Store) (ctx : ConversationContext) (u c : String) :
    (s.cacheUp = true → resolves (ContextService.updateContext s ctx) = true) ∧
    (s.cacheUp = false →
      resolves (ContextService.updateContext s ctx) = false ∧
      resolves (ContextService.getContext s u c) = false) := by
  constructor
  · intro hc
    unfold ContextService.updateContext
    simp [hc, resolves]
  · intro hc
    unfold ContextService.updateContext ContextService.getContext
    simp [hc, resolves]

/-- Witness for C3: the durable store is down yet `updateContext` resolves;
with the cache down both operations reject. -/
theorem C3_witness :
    resolves (ContextService.updateContext sampleStoreDbDown sampleCtx) = true ∧
    resolves (ContextService.updateContext sampleStoreCacheDown sampleCtx) = false ∧
    resolves (ContextService.getContext sampleStoreCacheDown "u1" "c1") = false :=
  ⟨(C3_cache_failure_semantics sampleStoreDbDown sampleCtx "u1" "c1").1 rfl,
   ((C3_cache_failure_semantics sampleStoreCacheDown sampleCtx "u1" "c1").2 rfl).1,
   ((C3_cache_failure_semantics sampleStoreCacheDown sampleCtx "u1" "c1").2 rfl).2⟩

/-! ### C4 -/

/-- C4: with both backends available, `clearContext` deletes the cache entry
and the durable row, a second consecutive call resolves without error, and a
subsequent `getContext` on the same key returns a fresh context with empty
history. -/
theorem C4_clearContext_idempotent (s : Store) (u c : String)
    (hc : s.cacheUp = true) (hd : s.dbUp = true) :
    ∃ s1, ContextService.clearContext s u c = .ok s1 ∧
      alookup s1.ctxCache (u, c) = none ∧
      alookup s1.dbContexts (u, c) = none ∧
      resolves (ContextService.clearContext s1 u c) = true ∧
      (∃ ctx s2, ContextService.getContext s1 u c = .ok (ctx, s2) ∧ ctx.history = []) := by
  refine ⟨{ s with ctxCache := adel s.ctxCache (u, c), dbContexts := adel s.dbContexts (u, c) },
    ?_, alookup_adel_self _ _, alookup_adel_self _ _, ?_, ?_⟩
  · unfold ContextService.clearContext
    simp [hc, hd]
  · unfold ContextService.clearContext
    simp [hc, hd, resolves]
  · rcases hgp : ContextService.getUserPreferences
        { s with ctxCache := adel s.ctxCache (u, c), dbContexts := adel s.dbContexts (u, c) } u
      with ⟨p, s2⟩
    refine ⟨⟨u, none, c, "message", [], [], p, s2.now⟩,
      { s2 with ctxCache := (aset s2.ctxCache (u, c)
          ⟨u, none, c, "message", [], [], p, s2.now⟩) },
      ?_, rfl⟩
    rw [hc] at hgp
    unfold ContextService.getContext
    simp [hc, alookup_adel_self, hgp]

/-- Witness for C4 at a concrete store holding the context to be cleared. -/
theorem C4_witness :
    ∃ s1, ContextService.clearContext
        { sampleStore with ctxCache := [(("u1", "c1"), sampleCtx)] } "u1" "c1" = .ok s1 ∧
      alookup s1.ctxCache ("u1", "c1") = none ∧
      alookup s1.dbContexts ("u1", "c1") = none ∧
      resolves (ContextService.clearContext s1 "u1" "c1") = true ∧
      (∃ ctx s2, ContextService.getContext s1 "u1" "c1" = .ok (ctx, s2) ∧ ctx.history = []) :=
  C4_clearContext_idempotent
    { sampleStore with ctxCache := [(("u1", "c1"), sampleCtx)] } "u1" "c1" rfl rfl

/-! ### C5 -/

/-- C5: a brand-new userId (no cached and no durable preferences) gets the
hardcoded defaults — language "en", default text model "gpt-4",
autoJoinVoice, and all notification flags on; and when the durable store
fails during the read, `getUserPreferences` still returns those defaults
instead of propagating the error. -/
theorem C5_preference_defaults (s : Store) (u : String)
    (hpc : alookup s.prefsCache u = none) :
    (s.dbUp = true → alookup s.dbUsers u = none →
      (ContextService.getUserPreferences s u).1 =
        { language := "en", textModel := "gpt-4", autoJoinVoice := true
          notificationSettings := { reminders := true, mentions := true, dms := true } }) ∧
    (s.cacheUp = true → s.dbUp = false →
      (ContextService.getUserPreferences s u).1 =
        { language := "en", textModel := "gpt-4", autoJoinVoice := true
          notificationSettings := { reminders := true, mentions := true, dms := true } }) := by
  constructor
  · intro hdb hdu
    unfold ContextService.getUserPreferences ContextService.getUserPreferencesTry
    cases hcc : s.cacheUp <;>
      simp [hpc, hdb, hdu, hcc, ContextService.defaultPreferences]
  · intro hcc hdb
    unfold ContextService.getUserPreferences ContextService.getUserPreferencesTry
    simp [hpc, hdb, hcc, ContextService.defaultPreferences]

/-- Witness for C5 on a fresh user, with the durable store up and down. -/
theorem C5_witness :
    (ContextService.getUserPreferences sampleStore "u9").1 =
      { language := "en", textModel := "gpt-4", autoJoinVoice := true
        notificationSettings := { reminders := true, mentions := true, dms := true } } ∧
    (ContextService.getUserPreferences sampleStoreDbDown "u9").1 =
      { language := "en", textModel := "gpt-4", autoJoinVoice := true
        notificationSettings := { reminders := true, mentions := true, dms := true } } :=
  ⟨(C5_preference_defaults sampleStore "u9" rfl).1 rfl rfl,
   (C5_preference_defaults sampleStoreDbDown "u9" rfl).2 rfl rfl⟩

/-! ### C6 -/

theorem specLastTurns_length_le {α : Type} (n : Nat) (l : List α) :
    (specLastTurns n l).length ≤ n := by
  induction l with
  | nil => simp [specLastTurns]
  | cons x xs ih =>
    unfold specLastTurns
    split
    · rename_i h
      simpa using h
    · exact ih

theorem drop_eq_specLastTurns {α : Type} (n : Nat) (l : List α) :
    l.drop (l.length - n) = specLastTurns n l := by
  induction l with
  | nil => simp [specLastTurns]
  | cons x xs ih =>
    unfold specLastTurns
    split
    · rename_i h
      have h0 : (x :: xs).length - n = 0 := by
        simp only [List.length_cons]
        omega
      rw [h0]
      rfl
    · rename_i h
      have h1 : (x :: xs).length - n = (xs.length - n) + 1 := by
        simp only [List.length_cons]
        omega
      rw [h1, List.drop_succ_cons]
      exact ih

/-- C6: the `/process` request built by the gateway's `processMessage` sends
the full tool list and the full preferences, but only the last 10 history
turns (all of them when the history has at most 10); when the context holds
more than 10 turns the history actually sent differs from the full history
retained in the context object. -/
theorem C6_payload_last_ten_turns (m : String) (ctx : ConversationContext) :
    (GriptapeService.processPayload m ctx).1 = m ∧
    (GriptapeService.processPayload m ctx).2.tools = ctx.tools ∧
    (GriptapeService.processPayload m ctx).2.preferences = ctx.preferences ∧
    (GriptapeService.processPayload m ctx).2.history = specLastTurns 10 ctx.history ∧
    (GriptapeService.processPayload m ctx).2.history.length ≤ 10 ∧
    (10 < ctx.history.length →
      (GriptapeService.processPayload m ctx).2.history ≠ ctx.history) := by
  refine ⟨rfl, rfl, rfl, ?_, ?_, ?_⟩
  · exact drop_eq_specLastTurns 10 ctx.history
  · show (ctx.history.drop (ctx.history.length - 10)).length ≤ 10
    rw [List.length_drop]
    omega
  · intro hlen heq
    have h2 : (GriptapeService.processPayload m ctx).2.history.length =
        ctx.history.length := by rw [heq]
    have h3 : (GriptapeService.processPayload m ctx).2.history.length =
        (ctx.history.drop (ctx.history.length - 10)).length := rfl
    rw [h3, List.length_drop] at h2
    omega

/-- Witness for C6 at a context holding twelve turns. -/
theorem C6_witness :
    (GriptapeService.processPayload "hello" longCtx).2.history ≠ longCtx.history :=
  (C6_payload_last_ten_turns "hello" longCtx).2.2.2.2.2
    (by simp [longCtx, longHistory])

/-! ### C7 and C10: slash-command cooldowns -/

/-- After a dispatched invocation of a command with a nonzero cooldown, the
cooldown table of the resulting state holds the invocation time under the
per-user-per-command key. -/
theorem handleInteraction_dispatched_records
    (commands : List (String × SlashCommandModel)) (st : CooldownState)
    (u name : String) (now : Nat) (cmd : SlashCommandModel) (c : Nat)
    (hcmd : alookup commands name = some cmd) (hcool : cmd.cooldown = some c)
    (hc : c ≠ 0)
    (hdisp : (SlashCommandHandler.handleInteraction commands st u name now).outcome =
      .dispatched) :
    alookup ((alookup (SlashCommandHandler.handleInteraction commands st u name
        now).state.table name).getD []) (u ++ "-" ++ name) = some now := by
  rcases hts : alookup ((alookup st.table name).getD []) (u ++ "-" ++ name) with _ | t0
  · simp only [SlashCommandHandler.handleInteraction, hcmd, hcool, if_neg hc, hts]
    simp [alookup_aset_self]
  · by_cases hlt : now < t0 + c * 1000
    · exfalso
      simp only [SlashCommandHandler.handleInteraction, hcmd, hcool, if_neg hc,
        hts, if_pos hlt] at hdisp
      exact absurd hdisp (by simp)
    · simp only [SlashCommandHandler.handleInteraction, hcmd, hcool, if_neg hc,
        hts, if_neg hlt]
      simp [alookup_aset_self]

/-- C7: for a user and a slash command with a (nonzero) cooldown, after a
dispatched invocation at `t1`, a second invocation at any `t2` inside the
cooldown window is rejected with the wait-time message, leaves the cooldown
state unchanged, dispatches no execute handler and performs no AI-gateway
call; and an invocation at any `t3` at or past the window's end dispatches
normally (running the handler's AI-gateway calls). -/
theorem C7_cooldown_window
    (commands : List (String × SlashCommandModel)) (st : CooldownState)
    (u name : String) (cmd : SlashCommandModel) (c t1 t2 t3 : Nat)
    (hcmd : alookup commands name = some cmd) (hcool : cmd.cooldown = some c)
    (hc : c ≠ 0)
    (hdisp : (SlashCommandHandler.handleInteraction commands st u name t1).outcome =
      .dispatched)
    (h2 : t2 < t1 + c * 1000) (h3 : t1 + c * 1000 ≤ t3) :
    SlashCommandHandler.handleInteraction commands
        (SlashCommandHandler.handleInteraction commands st u name t1).state u name t2 =
      { outcome := .rejected (t1 + c * 1000 - t2)
        state := (SlashCommandHandler.handleInteraction commands st u name t1).state
        aiCalls := 0 } ∧
    (SlashCommandHandler.handleInteraction commands
        (SlashCommandHandler.handleInteraction commands st u name t1).state u name
        t3).outcome = .dispatched ∧
    (SlashCommandHandler.handleInteraction commands
        (SlashCommandHandler.handleInteraction commands st u name t1).state u name
        t3).aiCalls = cmd.aiCalls := by
  have hrec := handleInteraction_dispatched_records commands st u name t1 cmd c
    hcmd hcool hc hdisp
  have hlt2 : ¬ t3 < t1 + c * 1000 := by omega
  generalize hst1 : (SlashCommandHandler.handleInteraction commands st u name t1).state
    = st1 at hrec ⊢
  refine ⟨?_, ?_, ?_⟩
  · simp only [SlashCommandHandler.handleInteraction, hcmd, hcool, if_neg hc,
      hrec, if_pos h2]
  · simp only [SlashCommandHandler.handleInteraction, hcmd, hcool, if_neg hc,
      hrec, if_neg hlt2]
  · simp only [SlashCommandHandler.handleInteraction, hcmd, hcool, if_neg hc,
      hrec, if_neg hlt2]

/-- Witness for C7: dispatch at t=1000ms, rejection at t=2000ms with a
2000ms wait, dispatch again at t=4000ms. -/
theorem C7_witness :
    SlashCommandHandler.handleInteraction c7Commands
        (SlashCommandHandler.handleInteraction c7Commands ⟨[]⟩ "u1" "chat" 1000).state
        "u1" "chat" 2000 =
      { outcome := .rejected 2000
        state := (SlashCommandHandler.handleInteraction c7Commands ⟨[]⟩ "u1" "chat"
          1000).state
        aiCalls := 0 } ∧
    (SlashCommandHandler.handleInteraction c7Commands
        (SlashCommandHandler.handleInteraction c7Commands ⟨[]⟩ "u1" "chat" 1000).state
        "u1" "chat" 4000).outcome = .dispatched ∧
    (SlashCommandHandler.handleInteraction c7Commands
        (SlashCommandHandler.handleInteraction c7Commands ⟨[]⟩ "u1" "chat" 1000).state
        "u1" "chat" 4000).aiCalls = 1 :=
  C7_cooldown_window c7Commands ⟨[]⟩ "u1" "chat" { cooldown := some 3, aiCalls := 1 }
    3 1000 2000 4000 rfl rfl (by decide) (by decide) (by decide) (by decide)

/-- C10: an invocation rejected by the cooldown check leaves the cooldown
table exactly as it was (no timestamp recorded) and performs no AI-gateway
call — the window stays measured from the last dispatched invocation. -/
theorem C10_rejection_frame
    (commands : List (String × SlashCommandModel)) (st : CooldownState)
    (u name : String) (now w : Nat)
    (hrej : (SlashCommandHandler.handleInteraction commands st u name now).outcome =
      .rejected w) :
    (SlashCommandHandler.handleInteraction commands st u name now).state = st ∧
    (SlashCommandHandler.handleInteraction commands st u name now).aiCalls = 0 := by
  rcases hcmd : alookup commands name with _ | cmd
  · simp only [SlashCommandHandler.handleInteraction, hcmd] at hrej
    exact absurd hrej (by simp)
  · rcases hcool : cmd.cooldown with _ | c
    · simp only [SlashCommandHandler.handleInteraction, hcmd, hcool] at hrej
      exact absurd hrej (by simp)
    · by_cases hc0 : c = 0
      · simp only [SlashCommandHandler.handleInteraction, hcmd, hcool,
          if_pos hc0] at hrej
        exact absurd hrej (by simp)
      · rcases hts : alookup ((alookup st.table name).getD []) (u ++ "-" ++ name)
          with _ | t0
        · simp only [SlashCommandHandler.handleInteraction, hcmd, hcool,
            if_neg hc0, hts] at hrej
          exact absurd hrej (by simp)
        · by_cases hlt : now < t0 + c * 1000
          · constructor <;>
              simp only [SlashCommandHandler.handleInteraction, hcmd, hcool,
                if_neg hc0, hts, if_pos hlt]
          · simp only [SlashCommandHandler.handleInteraction, hcmd, hcool,
              if_neg hc0, hts, if_neg hlt] at hrej
            exact absurd hrej (by simp)

/-- Witness for C10 at a concrete rejected invocation (t=2000ms, inside the
3-second window recorded at t=1000ms). -/
theorem C10_witness :
    (SlashCommandHandler.handleInteraction c7Commands c10State "u1" "chat"
      2000).state = c10State ∧
    (SlashCommandHandler.handleInteraction c7Commands c10State "u1" "chat"
      2000).aiCalls = 0 :=
  C10_rejection_frame c7Commands c10State "u1" "chat" 2000 2000 (by decide)

/-! ### C8: the `!weather` prefix command -/

/-- C8 counterexample: on the concrete message `"!weather San Francisco"`
the router does detect "weather", forward the prompt, and reply verbatim —
but the resulting store is bit-for-bit the input store: no user turn and no
assistant turn were appended to the cached context's history (still the one
prior turn) and `updateContext` was never called, refuting the claim's
append-and-persist conjuncts. -/
theorem C8_counterexample :
    MessageHandler.extractPrefixedContent "!weather San Francisco" =
      some "weather San Francisco" ∧
    MessageHandler.isCommand "weather San Francisco" = true ∧
    MessageHandler.parseCommand "weather San Francisco" = ("weather", "San Francisco") ∧
    (MessageHandler.handleWeatherCommand (some c8Response) c8Store "u1" "c1"
      "San Francisco").replies = ["Sunny in SF"] ∧
    (MessageHandler.handleWeatherCommand (some c8Response) c8Store "u1" "c1"
      "San Francisco").request.map Prod.fst =
      some "What's the weather like in San Francisco?" ∧
    (MessageHandler.handleWeatherCommand (some c8Response) c8Store "u1" "c1"
      "San Francisco").store = c8Store ∧
    (alookup ((MessageHandler.handleWeatherCommand (some c8Response) c8Store "u1" "c1"
        "San Francisco").store.ctxCache) ("u1", "c1")).map
      (fun ctx => ctx.history.length) = some 1 ∧
    ¬ ((alookup ((MessageHandler.handleWeatherCommand (some c8Response) c8Store "u1"
        "c1" "San Francisco").store.ctxCache) ("u1", "c1")).map
      (fun ctx => ctx.history.length) = some 3) ∧
    (MessageHandler.handleWeatherCommand (some c8Response) c8Store "u1" "c1"
      "San Francisco").store.dbContexts = [] := by
  decide

/-- C8 (amended): on `"!weather San Francisco"` the message router detects
the recognized command token "weather", forwards the prompt
`"What's the weather like in San Francisco?"` to the AI Text Gateway with
the user's existing (cached) context, and replies with the service's
`content` verbatim; but it appends no turn to the context's history and does
not persist anything — the backing store is returned unchanged. -/
theorem C8_amended_weather_no_persist (s : Store) (ctx : ConversationContext)
    (u c : String) (resp : AIResponse)
    (hc : s.cacheUp = true)
    (hcached : alookup s.ctxCache (u, c) = some ctx) :
    MessageHandler.extractPrefixedContent "!weather San Francisco" =
      some "weather San Francisco" ∧
    MessageHandler.isCommand "weather San Francisco" = true ∧
    MessageHandler.parseCommand "weather San Francisco" = ("weather", "San Francisco") ∧
    (MessageHandler.handleWeatherCommand (some resp) s u c "San Francisco").replies =
      [resp.content] ∧
    (MessageHandler.handleWeatherCommand (some resp) s u c "San Francisco").request =
      some (GriptapeService.processPayload
        "What's the weather like in San Francisco?" ctx) ∧
    (MessageHandler.handleWeatherCommand (some resp) s u c "San Francisco").store = s := by
  have hget : ContextService.getContext s u c = .ok (ctx, s) := by
    unfold ContextService.getContext
    simp [hc, hcached]
  have hstr : "What's the weather like in " ++ "San Francisco" ++ "?" =
      "What's the weather like in San Francisco?" := by decide
  refine ⟨by decide, by decide, by decide, ?_, ?_, ?_⟩ <;>
    · unfold MessageHandler.handleWeatherCommand
      rw [if_neg (by decide)]
      simp [hget, hstr, GriptapeService.processMessage]

/-- Witness for the amended C8 at the concrete scenario store. -/
theorem C8_witness :
    MessageHandler.extractPrefixedContent "!weather San Francisco" =
      some "weather San Francisco" ∧
    MessageHandler.isCommand "weather San Francisco" = true ∧
    MessageHandler.parseCommand "weather San Francisco" = ("weather", "San Francisco") ∧
    (MessageHandler.handleWeatherCommand (some c8Response) c8Store "u1" "c1"
      "San Francisco").replies = [c8Response.content] ∧
    (MessageHandler.handleWeatherCommand (some c8Response) c8Store "u1" "c1"
      "San Francisco").request =
      some (GriptapeService.processPayload
        "What's the weather like in San Francisco?" c8Ctx) ∧
    (MessageHandler.handleWeatherCommand (some c8Response) c8Store "u1" "c1"
      "San Francisco").store = c8Store :=
  C8_amended_weather_no_persist c8Store c8Ctx "u1" "c1" c8Response rfl (by decide)

/-! ### C9: error propagation at the gateway boundary -/

/-- C9 counterexample: a transport error during `executeTool` does not
propagate to the calling router — the promise resolves with a partial
result, a `ToolResult` with `success := false`; likewise a transport error
during `getStatus` resolves with a synthetic "unhealthy" `ServiceStatus`.
This refutes the claim that every transport/service error at a gateway
boundary propagates (only `processMessage` propagates). -/
theorem C9_counterexample :
    resolves (GriptapeService.executeTool none "web_search" "latest ai news") = true ∧
    GriptapeService.executeTool none "web_search" "latest ai news" =
      .ok { name := "web_search", input := "latest ai news", output := none
            success := false, error := some "Unknown error" } ∧
    resolves (GriptapeService.getStatus none 1234 7) = true ∧
    GriptapeService.getStatus none 1234 7 =
      .ok { status := "unhealthy", uptime := 0, lastCheck := 1234
            errors := ["Unknown error"]
            metrics := { requestsPerMinute := 0, averageLatency := 0, errorRate := 100 } } :=
  ⟨rfl, rfl, rfl, rfl⟩

/-- C9 (amended): a transport/service error in `processMessage` propagates
to the calling router as a rejection (wrapped, no retry, no partial result);
but `executeTool` converts such an error into a resolved `ToolResult` with
`success := false` and the error message, and `getStatus` converts it into a
resolved synthetic "unhealthy" `ServiceStatus` — neither propagates. -/
theorem C9_amended_propagation (msg : String) (ctx : ConversationContext)
    (toolName params : String) (now latency : Nat) :
    GriptapeService.processMessage none msg ctx = .error "Failed to process message" ∧
    resolves (GriptapeService.executeTool none toolName params) = true ∧
    GriptapeService.executeTool none toolName params =
      .ok { name := toolName, input := params, output := none
            success := false, error := some "Unknown error" } ∧
    (∃ st, GriptapeService.getStatus none now latency = .ok st ∧
      st.status = "unhealthy") :=
  ⟨rfl, rfl, rfl, _, rfl, rfl⟩

end DiscordBot
